import Mathlib

/-!
Verification development for the classroom noise-monitoring firmware
(`src/Beta4_20260106153844.ino`).  The numeric `float`/`double` values of the
firmware are modelled as exact rationals (`ℚ`) wherever the code performs only
field arithmetic and comparisons, and as reals (`ℝ`) for the calibration
statistics, whose finalization takes a square root.  Millisecond clocks are
`unsigned long` (32-bit) on the target; they are modelled as naturals below
2^32 with wraparound helpers `add32`/`sub32` mirroring C unsigned arithmetic.
-/

namespace ClassroomSounds

/-- Unsigned 32-bit addition, as performed on `unsigned long` millisecond
clocks (`nowMs + SPIKE_PENALTY_MS` and similar). -/
def add32 (a b : ℕ) : ℕ := (a + b) % 2 ^ 32

/-- Unsigned 32-bit subtraction `a - b` for `a b < 2^32`, as performed on
`unsigned long` millisecond clocks (`nowMs - quietStartMs` and similar). -/
def sub32 (a b : ℕ) : ℕ := (a + 2 ^ 32 - b) % 2 ^ 32

/-- The C `struct Thresholds { float greenMax; float amberMax; float redWarnDb; }`. -/
structure Thresholds where
  greenMax : ℚ
  amberMax : ℚ
  redWarnDb : ℚ
deriving DecidableEq

/-- The C `struct Guardrails { float gMin, gMax; float aMin, aMax; float rMin, rMax; }`. -/
structure Guardrails where
  gMin : ℚ
  gMax : ℚ
  aMin : ℚ
  aMax : ℚ
  rMin : ℚ
  rMax : ℚ
deriving DecidableEq

def emptyBand : String := ""
def bandSEND : String := "SEND"
def bandRY1 : String := "RY1"
def bandY2Y3 : String := "Y2Y3"
def bandY4Y6 : String := "Y4Y6"

/-- The function `Thresholds thresholdsForBand(const char* band)`.  The `const char*`
argument is modelled as `Option String` (`none` is the null pointer);
`String(band).toUpperCase()` is `String.toUpper`. -/
def thresholdsForBand (band : Option String) : Thresholds :=
  match band with
  | none => ⟨46, 49, 51⟩
  | some s =>
    let b := s.toUpper
    if b = bandRY1 then ⟨50, 53, 56⟩
    else if b = bandY2Y3 then ⟨49, 52, 55⟩
    else if b = bandY4Y6 then ⟨46, 49, 51⟩
    else if b = bandSEND then ⟨52, 56, 60⟩
    else ⟨46, 49, 51⟩

/-- The function `Guardrails guardrailsForBand(const char* band)`; `band ? band : ""` is
`Option.getD band ""`. -/
def guardrailsForBand (band : Option String) : Guardrails :=
  let b := (band.getD emptyBand).toUpper
  if b = bandSEND then ⟨42, 55, 46, 60, 50, 66⟩
  else if b = bandRY1 then ⟨40, 52, 44, 56, 48, 60⟩
  else if b = bandY2Y3 then ⟨38, 52, 42, 56, 46, 60⟩
  else if b = bandY4Y6 then ⟨40, 54, 45, 58, 49, 62⟩
  else ⟨39, 52, 44, 56, 48, 60⟩

/-- The helper `static inline float clampf(float v, float lo, float hi)`. -/
def clampf (v lo hi : ℚ) : ℚ :=
  if v < lo then lo
  else if v > hi then hi
  else v

/-- The function `Thresholds normalizeThresholds(Thresholds th)` with
`GAP_GA = GAP_AR = 2.0f`. -/
def normalizeThresholds (th : Thresholds) : Thresholds :=
  let th := if th.amberMax < th.greenMax + 2 then { th with amberMax := th.greenMax + 2 } else th
  if th.redWarnDb < th.amberMax + 2 then { th with redWarnDb := th.amberMax + 2 } else th

/-- The function `Thresholds applyGuardrails(Thresholds th, const char* band)`. -/
def applyGuardrails (th : Thresholds) (band : Option String) : Thresholds :=
  let gr := guardrailsForBand band
  let th : Thresholds :=
    { greenMax := clampf th.greenMax gr.gMin gr.gMax
      amberMax := clampf th.amberMax gr.aMin gr.aMax
      redWarnDb := clampf th.redWarnDb gr.rMin gr.rMax }
  normalizeThresholds th

/-- The C `enum ColorZone { Z_GREEN, Z_AMBER, Z_DEEP, Z_RED }`. -/
inductive ColorZone where
  | Z_GREEN
  | Z_AMBER
  | Z_DEEP
  | Z_RED
deriving DecidableEq

export ColorZone (Z_GREEN Z_AMBER Z_DEEP Z_RED)

/-- The classifier `ColorZone classifyZone(float dB)` against an active threshold set. -/
def classifyZone (th : Thresholds) (dB : ℚ) : ColorZone :=
  if dB ≤ th.greenMax then Z_GREEN
  else if dB ≤ th.amberMax then Z_AMBER
  else if dB ≤ th.redWarnDb then Z_DEEP
  else Z_RED

/-- Body of `ColorZone applyStickyHysteresis(ColorZone current, float dB)`
after the three margins have been computed; the margins and the active
threshold set are passed explicitly. -/
def applyStickyHysteresisCore (hysGA hysAD hysDR : ℚ) (th : Thresholds)
    (current : ColorZone) (dB : ℚ) : ColorZone :=
  match current with
  | Z_GREEN =>
    if dB > th.greenMax + hysGA then Z_AMBER else Z_GREEN
  | Z_AMBER =>
    if dB < th.greenMax - hysGA then Z_GREEN
    else if dB > th.amberMax + hysAD then Z_DEEP
    else Z_AMBER
  | Z_DEEP =>
    if dB < th.amberMax - hysAD then Z_AMBER
    else if dB > th.redWarnDb + hysDR then Z_RED
    else Z_DEEP
  | Z_RED =>
    if dB < th.redWarnDb - hysDR then Z_DEEP else Z_RED

/-- The function `ColorZone applyStickyHysteresis(ColorZone current, float dB)`: the
margins are `1.2/1.5` for a SEND classroom and the defaults
`HYS_GA_DEFAULT = 0.7`, `HYS_AD_DEFAULT = 0.9`, `HYS_DR_DEFAULT = 1.0`
otherwise; `send` is the value of `isSendClassroom()` and `th` the global
`ACTIVE_TH` read by the function. -/
def applyStickyHysteresis (send : Bool) (th : Thresholds)
    (current : ColorZone) (dB : ℚ) : ColorZone :=
  applyStickyHysteresisCore (if send then 1.2 else 0.7) (if send then 1.5 else 0.9) 1
    th current dB

/-- The C `enum WindowState { OFF, LESSON, ASSEMBLY, BREAK, LUNCH }`. -/
inductive WindowState where
  | OFF
  | LESSON
  | ASSEMBLY
  | BREAK
  | LUNCH
deriving DecidableEq

export WindowState (OFF LESSON ASSEMBLY BREAK LUNCH)

def sepColon : String := ":"

/-- The parser `int parseTimeToMins(const char* hhmm)`.  The `sscanf(hhmm, "%d:%d")`
call is modelled for plain decimal-digit fields around a single colon, which
covers every string the firmware feeds it; other strings fail the parse
(result `-1`), as a failed `sscanf` does. -/
def parseTimeToMins (hhmm : Option String) : Int :=
  match hhmm with
  | none => -1
  | some s =>
    if s.length < 4 ∨ s.length > 5 then -1
    else
      match (s.splitOn sepColon).map String.toNat? with
      | [some h, some m] =>
        if h > 23 ∨ m > 59 then -1 else h * 60 + m
      | _ => -1

/-- The six configurable `HH:MM` timetable boundary globals. -/
structure Timetable where
  t_day_start : String
  t_break1_start : String
  t_break1_end : String
  t_lunch_start : String
  t_lunch_end : String
  t_day_end : String
deriving DecidableEq

/-- The built-in boundary strings the globals are initialised with. -/
def defaultTimetable : Timetable :=
  { t_day_start := "08:50"
    t_break1_start := "10:30"
    t_break1_end := "10:45"
    t_lunch_start := "12:00"
    t_lunch_end := "13:00"
    t_day_end := "15:20" }

/-- The compile-time master switch `#define TIMETABLE_ENABLED 1`. -/
def TIMETABLE_ENABLED : Int := 1

/-- The resolver `WindowState getWindowState(int wday, int h, int m)`; the globals
`useTimetable` and the six timetable strings are passed explicitly. -/
def getWindowState (useTimetable : Bool) (tt : Timetable) (wday h m : Int) :
    WindowState :=
  if ¬useTimetable then LESSON
  else if TIMETABLE_ENABLED = 0 then LESSON
  else if wday < 1 ∨ wday > 5 then OFF
  else
    let mins := h * 60 + m
    let dayStart := parseTimeToMins (some tt.t_day_start)
    let break1Start := parseTimeToMins (some tt.t_break1_start)
    let break1End := parseTimeToMins (some tt.t_break1_end)
    let lunchStart := parseTimeToMins (some tt.t_lunch_start)
    let lunchEnd := parseTimeToMins (some tt.t_lunch_end)
    let dayEnd := parseTimeToMins (some tt.t_day_end)
    let configOk :=
      dayStart ≥ 0 ∧ break1Start ≥ 0 ∧ break1End ≥ 0 ∧
      lunchStart ≥ 0 ∧ lunchEnd ≥ 0 ∧ dayEnd ≥ 0 ∧
      dayStart < break1Start ∧ break1Start < break1End ∧
      break1End ≤ lunchStart ∧ lunchStart < lunchEnd ∧ lunchEnd < dayEnd
    if ¬configOk then
      if 530 ≤ mins ∧ mins < 625 then LESSON
      else if 625 ≤ mins ∧ mins < 645 then ASSEMBLY
      else if 645 ≤ mins ∧ mins < 660 then BREAK
      else if 660 ≤ mins ∧ mins < 720 then LESSON
      else if 720 ≤ mins ∧ mins < 780 then LUNCH
      else if 780 ≤ mins ∧ mins < 920 then LESSON
      else OFF
    else
      if mins < dayStart ∨ mins ≥ dayEnd then OFF
      else if mins < break1Start then LESSON
      else if mins < break1End then BREAK
      else if mins < lunchStart then LESSON
      else if mins < lunchEnd then LUNCH
      else LESSON

/-! ### Room calibration engine

The Welford running statistics of the firmware are plain `double` field
arithmetic and are modelled exactly over `ℚ`.  Only
`computeCalibratedThresholdsFromStats` (and its caller
`finalizeRoomCalibrationIfDue`) leave the rationals: they take a square root,
so the derived threshold set lives in `ℝ`. -/

/-- Real-valued counterpart of `Thresholds`, for the calibrated set. -/
structure ThresholdsR where
  greenMax : ℝ
  amberMax : ℝ
  redWarnDb : ℝ

/-- Injection of a rational threshold set into the real-valued model. -/
noncomputable def Thresholds.toR (th : Thresholds) : ThresholdsR :=
  ⟨(th.greenMax : ℝ), (th.amberMax : ℝ), (th.redWarnDb : ℝ)⟩

/-- The clamp `clampf` over `ℝ`. -/
noncomputable def clampR (v lo hi : ℝ) : ℝ :=
  if v < lo then lo
  else if v > hi then hi
  else v

/-- The function `normalizeThresholds` over `ℝ`. -/
noncomputable def normalizeThresholdsR (th : ThresholdsR) : ThresholdsR :=
  let th := if th.amberMax < th.greenMax + 2 then { th with amberMax := th.greenMax + 2 } else th
  if th.redWarnDb < th.amberMax + 2 then { th with redWarnDb := th.amberMax + 2 } else th

/-- The function `applyGuardrails` over `ℝ` (the guardrail bounds are the exact integer
constants of `guardrailsForBand`, cast to `ℝ`). -/
noncomputable def applyGuardrailsR (th : ThresholdsR) (band : Option String) :
    ThresholdsR :=
  let gr := guardrailsForBand band
  let th : ThresholdsR :=
    { greenMax := clampR th.greenMax gr.gMin gr.gMax
      amberMax := clampR th.amberMax gr.aMin gr.aMax
      redWarnDb := clampR th.redWarnDb gr.rMin gr.rMax }
  normalizeThresholdsR th

/-- A C `float` argument: either a finite value or one of the non-finite
classes (`NaN`, `+inf`, `-inf`) that `isfinite` rejects. -/
inductive FVal where
  | finite (x : ℚ)
  | nan
  | inf
  | negInf
deriving DecidableEq

/-- The predicate `isfinite` on an `FVal`. -/
def FVal.isfinite : FVal → Bool
  | .finite _ => true
  | _ => false

/-- The calibration-statistics globals: portal/completion flags, window start
epoch, Welford statistics and the configured `yearBand`.  (The calibrated
threshold sets `CAL_TH`/`ACTIVE_TH` written by finalization live in `ℝ` and
are returned by `finalizeRoomCalibrationIfDue` separately.) -/
structure CalState where
  roomCalEnabled : Bool
  roomCalComplete : Bool
  roomCalStartEpoch : ℤ
  calCount : ℕ
  calMean : ℚ
  calM2 : ℚ
  calMinDb : ℚ
  calMaxDb : ℚ
  yearBand : String
deriving DecidableEq

/-- The guard `static inline bool hasValidTime(time_t t) { return t > 1700000000; }`. -/
def hasValidTime (t : ℤ) : Bool := t > 1700000000

def ROOM_CAL_DAYS : ℕ := 5
def ROOM_CAL_SECONDS : ℕ := ROOM_CAL_DAYS * 24 * 60 * 60

/-- The statistics part of `void resetRoomCalibration(time_t nowEpoch)` (the
function also rewrites `CAL_TH` to the guardrail-bounded band default and
persists everything via `preferences.put*`, which has no effect on the
modelled statistics). -/
def resetRoomCalibration (st : CalState) (nowEpoch : ℤ) : CalState :=
  { st with
    roomCalComplete := false
    roomCalStartEpoch := if hasValidTime nowEpoch then nowEpoch else 0
    calCount := 0
    calMean := 0
    calM2 := 0
    calMinDb := 9999
    calMaxDb := -9999 }

/-- The function `void updateRoomCalibration(float avgDB)`: Welford update of count, mean
and `M2`, plus min/max tracking; an early `return` on non-finite input. -/
def updateRoomCalibration (st : CalState) (avgDB : FVal) : CalState :=
  match avgDB with
  | .finite x =>
    let calCount := st.calCount + 1
    let delta := x - st.calMean
    let calMean := st.calMean + delta / (calCount : ℚ)
    let delta2 := x - calMean
    { st with
      calCount := calCount
      calMean := calMean
      calM2 := st.calM2 + delta * delta2
      calMinDb := if x < st.calMinDb then x else st.calMinDb
      calMaxDb := if x > st.calMaxDb then x else st.calMaxDb }
  | _ => st

/-- The guard `static inline bool calibrationWindowActive(time_t nowEpoch)`; the
`(uint32_t)(nowEpoch - roomCalStartEpoch)` cast is the nonnegative residue
modulo `2^32`. -/
def calibrationWindowActive (st : CalState) (nowEpoch : ℤ) : Bool :=
  if ¬st.roomCalEnabled then false
  else if st.roomCalComplete then false
  else if ¬hasValidTime nowEpoch then false
  else if ¬hasValidTime st.roomCalStartEpoch then false
  else ((nowEpoch - st.roomCalStartEpoch) % 2 ^ 32).toNat < ROOM_CAL_SECONDS

/-- The function `Thresholds computeCalibratedThresholdsFromStats(const char* band)`,
reading the Welford statistics from the state. -/
noncomputable def computeCalibratedThresholdsFromStats (st : CalState)
    (band : Option String) : ThresholdsR :=
  if st.calCount < 60 then
    applyGuardrailsR (thresholdsForBand band).toR band
  else
    let variance : ℝ :=
      if st.calCount > 1 then (st.calM2 : ℝ) / ((st.calCount - 1 : ℕ) : ℝ) else 0
    let variance := if variance < 0 then 0 else variance
    let sd := Real.sqrt variance
    let th : ThresholdsR :=
      ⟨(st.calMean : ℝ) + 0.90 * sd, (st.calMean : ℝ) + 1.60 * sd,
        (st.calMean : ℝ) + 2.40 * sd⟩
    let th : ThresholdsR :=
      if sd < 1 then
        ⟨(st.calMean : ℝ) + 1.0, (st.calMean : ℝ) + 3.0, (st.calMean : ℝ) + 6.0⟩
      else th
    applyGuardrailsR th band

/-- The function `void finalizeRoomCalibrationIfDue(time_t nowEpoch)`: once elapsed time
(32-bit cast) reaches `ROOM_CAL_SECONDS`, stores the computed thresholds in
`CAL_TH`, marks calibration complete and adopts them as `ACTIVE_TH`.  The
result pairs the updated state with `none` when the globals `CAL_TH` and
`ACTIVE_TH` are untouched, or `some th` when both are overwritten with
`th`. -/
noncomputable def finalizeRoomCalibrationIfDue (st : CalState) (nowEpoch : ℤ) :
    CalState × Option ThresholdsR :=
  if ¬st.roomCalEnabled then (st, none)
  else if st.roomCalComplete then (st, none)
  else if ¬hasValidTime nowEpoch ∨ ¬hasValidTime st.roomCalStartEpoch then (st, none)
  else if ((nowEpoch - st.roomCalStartEpoch) % 2 ^ 32).toNat < ROOM_CAL_SECONDS then
    (st, none)
  else
    let th := computeCalibratedThresholdsFromStats st (some st.yearBand)
    ({ st with roomCalComplete := true }, some th)

/-! ### Quiet-reward state machine (per-tick logic of `loop`)

`loopTick` embeds, for one control-loop iteration, the reward-relevant part
of `loop`: the LESSON-transition detection (lines 1227-1232), the sleep
detection (lines 1294-1305), the anti-gaming quiet-reward block (lines
1345-1410) and the reward-display / log-flag block (lines 1413-1426).  The
rolling average `avgDB`, the schedule window `ws`, the device mode and the
active `goodDb = ACTIVE_TH.greenMax` are read afresh each iteration and are
therefore inputs of the tick.  Button handling, Wi-Fi, logging transports,
LED rendering and the calibration sampling (which never writes the reward
state) are omitted. -/

/-- The C `enum DeviceMode { MODE_NORMAL, MODE_HOLLY_HOP }`. -/
inductive DeviceMode where
  | MODE_NORMAL
  | MODE_HOLLY_HOP
deriving DecidableEq

export DeviceMode (MODE_NORMAL MODE_HOLLY_HOP)

def REWARD_COOLDOWN_MS : ℕ := 3 * 60 * 1000
def REWARD_BREAK_MARGIN_DB : ℚ := 1.5
def SPIKE_PENALTY_MS : ℕ := 2 * 60 * 1000
def REWARD_SPIKE_MARGIN_DB : ℚ := 8.0
def MIN_LESSON_BEFORE_REWARD_MS : ℕ := 2 * 60 * 1000
def QUIET_REWARD_MS : ℕ := 120000
def REWARD_DURATION_MS : ℕ := 3000
def REWARD_LOG_WINDOW_MS : ℕ := 130000
def SLEEP_DB_THRESHOLD : ℚ := 30.0
def WAKE_DB_THRESHOLD : ℚ := 23.0
def SILENCE_DURATION_MS : ℕ := 300000

/-- Per-iteration inputs of the control loop: `millis()`, the rolling
average `calculateAverage()`, the resolved schedule window, the device mode
and the active good threshold `ACTIVE_TH.greenMax`. -/
structure TickInput where
  nowMs : ℕ
  avgDB : ℚ
  ws : WindowState
  mode : DeviceMode
  goodDb : ℚ
deriving DecidableEq

/-- The mutable globals read and written by the embedded part of `loop`. -/
structure RState where
  quietStartMs : ℕ
  rewardStartMs : ℕ
  rewardShowing : Bool
  rewardActiveForLog : Bool
  rewardLogUntilMs : ℕ
  rewardCooldownUntilMs : ℕ
  penaltyUntilMs : ℕ
  needsResetAboveGood : Bool
  lessonStartMs : ℕ
  lastWs : WindowState
  inSleepMode : Bool
  silenceStartMs : ℕ
deriving DecidableEq

/-- Lines 1227-1232: on a transition into LESSON, record the lesson start
and reset the streak (cooldown/penalty are deliberately not reset); then
remember the window state in `lastWs`. -/
def lessonTransition (s : RState) (i : TickInput) : RState :=
  let s :=
    if i.ws = LESSON ∧ s.lastWs ≠ LESSON then
      { s with lessonStartMs := i.nowMs, quietStartMs := 0 }
    else s
  { s with lastWs := i.ws }

/-- Lines 1294-1300: sleep detection from the raw rolling average (runs only
in the LESSON branch). -/
def sleepUpdate (s : RState) (i : TickInput) : RState :=
  let s :=
    if i.avgDB < SLEEP_DB_THRESHOLD then
      let s := if s.silenceStartMs = 0 then { s with silenceStartMs := i.nowMs } else s
      if ¬s.inSleepMode ∧ sub32 i.nowMs s.silenceStartMs ≥ SILENCE_DURATION_MS then
        { s with inSleepMode := true }
      else s
    else { s with silenceStartMs := 0 }
  if i.avgDB ≥ WAKE_DB_THRESHOLD ∧ s.inSleepMode then { s with inSleepMode := false } else s

/-- Lines 1380-1406 of the quiet-reward block: the streak accrual guarded by
`if (!needsResetAboveGood)` — start or continue the quiet streak when the
average is at most `goodDb`, grant once the continuous duration reaches
`QUIET_REWARD_MS`, reset the streak at or above `breakDb = goodDb + 1.5`,
and leave it alone in the tolerance band between the two. -/
def rewardStreak (s : RState) (i : TickInput) : RState × Bool :=
  if s.needsResetAboveGood = false then
    if i.avgDB ≤ i.goodDb then
      let s := if s.quietStartMs = 0 then { s with quietStartMs := i.nowMs } else s
      if sub32 i.nowMs s.quietStartMs ≥ QUIET_REWARD_MS then
        ({ s with
            rewardCooldownUntilMs := add32 i.nowMs REWARD_COOLDOWN_MS
            needsResetAboveGood := true
            rewardActiveForLog := true
            rewardLogUntilMs := add32 i.nowMs REWARD_LOG_WINDOW_MS
            rewardShowing := true
            rewardStartMs := i.nowMs
            quietStartMs := 0 }, true)
      else (s, false)
    else if i.avgDB ≥ i.goodDb + REWARD_BREAK_MARGIN_DB then
      ({ s with quietStartMs := 0 }, false)
    else (s, false)
  else (s, false)

/-- Lines 1363-1407 of the quiet-reward block, after the spike check: clear
the above-good flag when the average exceeds `goodDb`, zero the streak
during a cooldown or penalty lockout, apply the forced-reset-above-good
gate, then run the streak accrual. -/
def rewardGate (s : RState) (i : TickInput) : RState × Bool :=
  let s := if i.avgDB > i.goodDb then { s with needsResetAboveGood := false } else s
  if i.nowMs < s.rewardCooldownUntilMs ∨ i.nowMs < s.penaltyUntilMs then
    ({ s with quietStartMs := 0 }, false)
  else
    let s :=
      if s.needsResetAboveGood then
        if i.avgDB > i.goodDb then { s with needsResetAboveGood := false }
        else { s with quietStartMs := 0 }
      else s
    rewardStreak s i

/-- Lines 1345-1410, the anti-gaming quiet-reward block.  The returned `Bool`
is `true` exactly when this tick grants a reward (the branch that calls
`logQuietRewardEvent`, enters Showing-Reward and returns early).  The
local `spikeDb`/`breakDb` of the firmware are inlined as
`i.goodDb + REWARD_SPIKE_MARGIN_DB` / `+ REWARD_BREAK_MARGIN_DB`. -/
def rewardLogic (s : RState) (i : TickInput) : RState × Bool :=
  if ¬(s.rewardShowing = false ∧ i.mode = MODE_NORMAL) then (s, false)
  else if sub32 i.nowMs s.lessonStartMs < MIN_LESSON_BEFORE_REWARD_MS then
    ({ s with quietStartMs := 0 }, false)
  else if i.avgDB ≥ i.goodDb + REWARD_SPIKE_MARGIN_DB then
    ({ s with
        penaltyUntilMs := add32 i.nowMs SPIKE_PENALTY_MS
        quietStartMs := 0
        needsResetAboveGood := true }, false)
  else rewardGate s i

/-- Lines 1413-1426: while the reward animation is within its 3-second
window the loop returns early (state frozen); on expiry Showing-Reward ends
with the streak zeroed; afterwards the persistent log flag decays once
`(long)(nowMs - rewardLogUntilMs) >= 0`, i.e. once the 32-bit difference,
read as a signed int, is nonnegative. -/
def displayAndLogDecay (s : RState) (i : TickInput) : RState :=
  if s.rewardShowing ∧ sub32 i.nowMs s.rewardStartMs < REWARD_DURATION_MS then s
  else
    let s :=
      if s.rewardShowing then { s with rewardShowing := false, quietStartMs := 0 } else s
    if s.rewardActiveForLog ∧ sub32 i.nowMs s.rewardLogUntilMs < 2 ^ 31 then
      { s with rewardActiveForLog := false }
    else s

/-- One reward-relevant iteration of `loop`.  Outside LESSON the embedded
state is untouched (the loop renders blue breathing or clears the strip and
returns); inside LESSON, sleep mode short-circuits everything, a granting
tick returns immediately after the grant, and otherwise the display/log
block runs. -/
def loopTick (s : RState) (i : TickInput) : RState × Bool :=
  let s := lessonTransition s i
  if i.ws = LESSON then
    let s := sleepUpdate s i
    if s.inSleepMode then (s, false)
    else
      let sg := rewardLogic s i
      if sg.2 then sg
      else (displayAndLogDecay sg.1 i, false)
  else (s, false)

/-- State after `n` ticks of `loopTick` against the input stream `inputs`,
starting from `s0`. -/
def stateAt (s0 : RState) (inputs : ℕ → TickInput) : ℕ → RState
  | 0 => s0
  | n + 1 => (loopTick (stateAt s0 inputs n) (inputs n)).1

/-- Whether tick `n` of the run grants a reward. -/
def grantAt (s0 : RState) (inputs : ℕ → TickInput) (n : ℕ) : Bool :=
  (loopTick (stateAt s0 inputs n) (inputs n)).2

/-- Run a finite list of ticks, collecting the final state and the per-tick
grant flags in order. -/
def runTicks (s : RState) : List TickInput → RState × List Bool
  | [] => (s, [])
  | i :: rest =>
    let sg := loopTick s i
    let r := runTicks sg.1 rest
    (r.1, sg.2 :: r.2)

/-! ## Theorems -/

/-- Well-formedness facts true of every guardrail record the firmware can
produce: ordered bounds, and enough slack that gap-normalization cannot push
a clamped field past its upper bound. -/
def Guardrails.Wf (gr : Guardrails) : Prop :=
  gr.gMin ≤ gr.gMax ∧ gr.aMin ≤ gr.aMax ∧ gr.rMin ≤ gr.rMax ∧
    gr.gMax + 2 ≤ gr.aMax ∧ gr.aMax + 2 ≤ gr.rMax

theorem guardrailsForBand_wf (band : Option String) :
    (guardrailsForBand band).Wf := by
  simp only [guardrailsForBand]
  split_ifs <;> exact ⟨by norm_num, by norm_num, by norm_num, by norm_num, by norm_num⟩

theorem clampf_mem (v lo hi : ℚ) (h : lo ≤ hi) :
    lo ≤ clampf v lo hi ∧ clampf v lo hi ≤ hi := by
  unfold clampf
  split_ifs <;> constructor <;> linarith

/-- Gap-normalization of a triple already inside well-formed guardrail
bounds keeps every field inside its bounds and forces the two gaps. -/
theorem normalize_gap_bounds (gr : Guardrails) (g a r : ℚ)
    (hg1 : gr.gMin ≤ g) (hg2 : g ≤ gr.gMax)
    (ha1 : gr.aMin ≤ a) (ha2 : a ≤ gr.aMax)
    (hr1 : gr.rMin ≤ r) (hr2 : r ≤ gr.rMax)
    (w4 : gr.gMax + 2 ≤ gr.aMax) (w5 : gr.aMax + 2 ≤ gr.rMax) :
    ((normalizeThresholds ⟨g, a, r⟩).greenMax <
        (normalizeThresholds ⟨g, a, r⟩).amberMax - 1 ∧
      (normalizeThresholds ⟨g, a, r⟩).amberMax <
        (normalizeThresholds ⟨g, a, r⟩).redWarnDb - 1) ∧
    (gr.gMin ≤ (normalizeThresholds ⟨g, a, r⟩).greenMax ∧
      (normalizeThresholds ⟨g, a, r⟩).greenMax ≤ gr.gMax) ∧
    (gr.aMin ≤ (normalizeThresholds ⟨g, a, r⟩).amberMax ∧
      (normalizeThresholds ⟨g, a, r⟩).amberMax ≤ gr.aMax) ∧
    (gr.rMin ≤ (normalizeThresholds ⟨g, a, r⟩).redWarnDb ∧
      (normalizeThresholds ⟨g, a, r⟩).redWarnDb ≤ gr.rMax) := by
  simp only [normalizeThresholds]
  split_ifs <;>
    refine ⟨⟨?_, ?_⟩, ⟨?_, ?_⟩, ⟨?_, ?_⟩, ⟨?_, ?_⟩⟩ <;>
    simp_all <;> linarith

/-- C2: for every input threshold triple and every audience band, the result
of `applyGuardrails` satisfies the strict gap invariant
`greenMax < amberMax - 1` and `amberMax < redWarnDb - 1`, and each of the
three fields lies within the guardrail `[min, max]` bounds of its band. -/
theorem applyGuardrails_gap_and_bounds (th : Thresholds) (band : Option String) :
    ((applyGuardrails th band).greenMax < (applyGuardrails th band).amberMax - 1 ∧
      (applyGuardrails th band).amberMax < (applyGuardrails th band).redWarnDb - 1) ∧
    ((guardrailsForBand band).gMin ≤ (applyGuardrails th band).greenMax ∧
      (applyGuardrails th band).greenMax ≤ (guardrailsForBand band).gMax) ∧
    ((guardrailsForBand band).aMin ≤ (applyGuardrails th band).amberMax ∧
      (applyGuardrails th band).amberMax ≤ (guardrailsForBand band).aMax) ∧
    ((guardrailsForBand band).rMin ≤ (applyGuardrails th band).redWarnDb ∧
      (applyGuardrails th band).redWarnDb ≤ (guardrailsForBand band).rMax) := by
  obtain ⟨h1, h2, h3, h4, h5⟩ := guardrailsForBand_wf band
  have e : applyGuardrails th band =
      normalizeThresholds
        ⟨clampf th.greenMax (guardrailsForBand band).gMin (guardrailsForBand band).gMax,
          clampf th.amberMax (guardrailsForBand band).aMin (guardrailsForBand band).aMax,
          clampf th.redWarnDb (guardrailsForBand band).rMin (guardrailsForBand band).rMax⟩ :=
    rfl
  rw [e]
  obtain ⟨g1, g2⟩ := clampf_mem th.greenMax _ _ h1
  obtain ⟨a1, a2⟩ := clampf_mem th.amberMax _ _ h2
  obtain ⟨r1, r2⟩ := clampf_mem th.redWarnDb _ _ h3
  exact normalize_gap_bounds _ _ _ _ g1 g2 a1 a2 r1 r2 h4 h5

/-- C4, counterexample: starting from `Z_GREEN` at value 60 under the Y2Y3
default thresholds, the first application of `applyStickyHysteresis` returns
`Z_AMBER` but a second application with the same value moves on to `Z_DEEP`,
so a second application does not return the zone produced by the first. -/
theorem hysteresis_second_application_moves_at_60 :
    applyStickyHysteresis false ⟨49, 52, 55⟩
        (applyStickyHysteresis false ⟨49, 52, 55⟩ Z_GREEN 60) 60 ≠
      applyStickyHysteresis false ⟨49, 52, 55⟩ Z_GREEN 60 := by
  with_unfolding_all decide

/-- C4, amended: `applyStickyHysteresis` is idempotent at a fixed input once
it reports no change — if an application returns the current zone itself,
applying it again with the same value returns that zone. -/
theorem hysteresis_idempotent_once_stable (send : Bool) (th : Thresholds)
    (z : ColorZone) (v : ℚ) (h : applyStickyHysteresis send th z v = z) :
    applyStickyHysteresis send th (applyStickyHysteresis send th z v) v =
      applyStickyHysteresis send th z v := by
  rw [h]
  exact h

theorem hysteresis_idempotent_once_stable_witness :
    applyStickyHysteresis false ⟨49, 52, 55⟩
        (applyStickyHysteresis false ⟨49, 52, 55⟩ Z_GREEN 40) 40 =
      applyStickyHysteresis false ⟨49, 52, 55⟩ Z_GREEN 40 :=
  hysteresis_idempotent_once_stable false ⟨49, 52, 55⟩ Z_GREEN 40
    (by with_unfolding_all decide)

/-- With positive hysteresis margins, four applications of the sticky
transition at a fixed value agree with three: no boundary can be re-crossed
in the opposite direction at the same value, so the one-step-at-a-time orbit
is monotone over the four zones and must stop. -/
theorem core_fourth_eq_third (hGA hAD hDR : ℚ) (hga : 0 < hGA) (had : 0 < hAD)
    (hdr : 0 < hDR) (th : Thresholds) (v : ℚ) (z : ColorZone) :
    applyStickyHysteresisCore hGA hAD hDR th
        (applyStickyHysteresisCore hGA hAD hDR th
          (applyStickyHysteresisCore hGA hAD hDR th
            (applyStickyHysteresisCore hGA hAD hDR th z v) v) v) v =
      applyStickyHysteresisCore hGA hAD hDR th
        (applyStickyHysteresisCore hGA hAD hDR th
          (applyStickyHysteresisCore hGA hAD hDR th z v) v) v := by
  by_cases c1 : v > th.greenMax + hGA <;>
    by_cases c2 : v < th.greenMax - hGA <;>
    by_cases c3 : v > th.amberMax + hAD <;>
    by_cases c4 : v < th.amberMax - hAD <;>
    by_cases c5 : v > th.redWarnDb + hDR <;>
    by_cases c6 : v < th.redWarnDb - hDR <;>
    first
      | (exfalso; linarith)
      | (cases z <;> simp [applyStickyHysteresisCore, c1, c2, c3, c4, c5, c6])

/-- C9: for every starting zone and fixed value, under any threshold set and
either margin profile of the code, iterating `applyStickyHysteresis` reaches
a fixed point within at most 3 applications — the 4th application equals the
3rd — and once a zone repeats (is a fixed point at that value) it never
changes again. -/
theorem hysteresis_reaches_fixed_point_within_three (send : Bool)
    (th : Thresholds) (v : ℚ) (z : ColorZone) :
    (applyStickyHysteresis send th
        (applyStickyHysteresis send th
          (applyStickyHysteresis send th
            (applyStickyHysteresis send th z v) v) v) v =
      applyStickyHysteresis send th
        (applyStickyHysteresis send th
          (applyStickyHysteresis send th z v) v) v) ∧
    ∀ w : ColorZone, applyStickyHysteresis send th w v = w →
      ∀ n : ℕ, (fun w => applyStickyHysteresis send th w v)^[n] w = w := by
  constructor
  · cases send <;>
      exact core_fourth_eq_third _ _ _ (by norm_num) (by norm_num) (by norm_num) th v z
  · intro w hw n
    induction n with
    | zero => rfl
    | succ n ih => rw [Function.iterate_succ_apply, show applyStickyHysteresis send th w v = w from hw, ih]

theorem hysteresis_reaches_fixed_point_within_three_witness :
    (fun w => applyStickyHysteresis false ⟨49, 52, 55⟩ w 60)^[5] Z_RED = Z_RED :=
  (hysteresis_reaches_fixed_point_within_three false ⟨49, 52, 55⟩ 60 Z_GREEN).2
    Z_RED (by with_unfolding_all decide) 5

/-- C8: `getWindowState` returns `OFF` for weekday 6 (Saturday) at every
hour and minute when the timetable is in use with the default fallback
timetable, and returns `LESSON` for every timetable, weekday, hour and
minute when the always-on override is configured (`useTimetable` false). -/
theorem window_saturday_off_and_always_on :
    (∀ h m : Int, getWindowState true defaultTimetable 6 h m = OFF) ∧
    (∀ (tt : Timetable) (wday h m : Int), getWindowState false tt wday h m = LESSON) := by
  constructor
  · intro h m
    simp [getWindowState, TIMETABLE_ENABLED]
  · intro tt wday h m
    simp [getWindowState]

/-- C10: `updateRoomCalibration` is a no-op on non-finite input — for every
argument that is `NaN` or infinite, all calibration statistics are left
unchanged. -/
theorem update_cal_nonfinite_noop (st : CalState) (v : FVal)
    (h : v.isfinite = false) : updateRoomCalibration st v = st := by
  cases v with
  | finite x => simp [FVal.isfinite] at h
  | nan => rfl
  | inf => rfl
  | negInf => rfl

def calStExample : CalState := ⟨false, false, 0, 0, 0, 0, 9999, -9999, bandY2Y3⟩

theorem update_cal_nonfinite_noop_witness :
    updateRoomCalibration calStExample FVal.nan = calStExample :=
  update_cal_nonfinite_noop calStExample FVal.nan rfl

/-- Feed a list of finite samples, in order, to `updateRoomCalibration`. -/
def feedSamples (st : CalState) (xs : List ℚ) : CalState :=
  xs.foldl (fun s x => updateRoomCalibration s (FVal.finite x)) st

/-- Spec-side: the arithmetic mean of a sequence of samples. -/
def specMean (xs : List ℚ) : ℚ := xs.sum / (xs.length : ℚ)

/-- Spec-side: the closed-form unbiased sample variance of a sequence. -/
def specSampleVariance (xs : List ℚ) : ℚ :=
  (xs.map (fun x => (x - specMean xs) ^ 2)).sum / ((xs.length : ℚ) - 1)

theorem sum_sq_dev (xs : List ℚ) (μ : ℚ) :
    (xs.map (fun x => (x - μ) ^ 2)).sum =
      (xs.map (fun x => x ^ 2)).sum - 2 * μ * xs.sum + (xs.length : ℚ) * μ ^ 2 := by
  induction xs with
  | nil => simp
  | cons y ys ih =>
    simp only [List.map_cons, List.sum_cons, List.length_cons, ih]
    push_cast
    ring

/-- The three Welford statistics after one finite sample, as closed
formulas over the previous state. -/
theorem updateRoomCalibration_finite (s : CalState) (x : ℚ) :
    (updateRoomCalibration s (FVal.finite x)).calCount = s.calCount + 1 ∧
    (updateRoomCalibration s (FVal.finite x)).calMean =
      s.calMean + (x - s.calMean) / ((s.calCount : ℚ) + 1) ∧
    (updateRoomCalibration s (FVal.finite x)).calM2 =
      s.calM2 + (x - s.calMean) *
        (x - (s.calMean + (x - s.calMean) / ((s.calCount : ℚ) + 1))) := by
  refine ⟨rfl, ?_, ?_⟩ <;> simp [updateRoomCalibration]

/-- Welford invariant: starting from zeroed statistics, after any sample list
the count is the length, the mean is the sum over the count, and `M2` is the
sum of squares minus the squared sum over the count. -/
theorem welford_invariant (xs : List ℚ) (st : CalState)
    (h : st.calCount = 0 ∧ st.calMean = 0 ∧ st.calM2 = 0) :
    (feedSamples st xs).calCount = xs.length ∧
    (feedSamples st xs).calMean = xs.sum / (xs.length : ℚ) ∧
    (feedSamples st xs).calM2 =
      (xs.map (fun x => x ^ 2)).sum - xs.sum ^ 2 / (xs.length : ℚ) := by
  induction xs using List.reverseRecOn with
  | nil =>
    simpa [feedSamples] using ⟨h.1, h.2.1, h.2.2⟩
  | append_singleton xs x ih =>
    obtain ⟨hc, hm, h2⟩ := ih
    have hfeed : feedSamples st (xs ++ [x]) =
        updateRoomCalibration (feedSamples st xs) (FVal.finite x) := by
      simp [feedSamples]
    obtain ⟨uc, um, u2⟩ := updateRoomCalibration_finite (feedSamples st xs) x
    rw [hfeed, uc, um, u2, hc, hm, h2]
    refine ⟨by simp, ?_, ?_⟩ <;>
      rcases Nat.eq_zero_or_pos xs.length with hn | hn
    · obtain rfl : xs = [] := List.length_eq_zero.mp hn
      simp
    · have hn0 : (xs.length : ℚ) ≠ 0 := Nat.cast_ne_zero.mpr (Nat.pos_iff_ne_zero.mp hn)
      have hn1 : (xs.length : ℚ) + 1 ≠ 0 := by positivity
      simp only [List.sum_append, List.map_append, List.length_append,
        List.sum_cons, List.sum_nil, List.map_cons, List.map_nil,
        List.length_cons, List.length_nil]
      push_cast
      field_simp
      ring
    · obtain rfl : xs = [] := List.length_eq_zero.mp hn
      simp
    · have hn0 : (xs.length : ℚ) ≠ 0 := Nat.cast_ne_zero.mpr (Nat.pos_iff_ne_zero.mp hn)
      have hn1 : (xs.length : ℚ) + 1 ≠ 0 := by positivity
      simp only [List.sum_append, List.map_append, List.length_append,
        List.sum_cons, List.sum_nil, List.map_cons, List.map_nil,
        List.length_cons, List.length_nil]
      push_cast
      field_simp
      ring

/-- C5: for every finite sequence of finite samples fed in order to
`updateRoomCalibration` starting from reset statistics, the final `calMean`
equals the arithmetic mean of the sequence and `calM2 / (count - 1)` equals
the closed-form unbiased sample variance, exactly (the statistics are plain
field arithmetic, modelled exactly over `ℚ`). -/
theorem welford_mean_and_variance (st0 : CalState) (e : ℤ) (xs : List ℚ) :
    (feedSamples (resetRoomCalibration st0 e) xs).calCount = xs.length ∧
    (feedSamples (resetRoomCalibration st0 e) xs).calMean = specMean xs ∧
    (feedSamples (resetRoomCalibration st0 e) xs).calM2 /
        (((feedSamples (resetRoomCalibration st0 e) xs).calCount : ℚ) - 1) =
      specSampleVariance xs := by
  obtain ⟨hc, hm, h2⟩ := welford_invariant xs (resetRoomCalibration st0 e) ⟨rfl, rfl, rfl⟩
  refine ⟨hc, hm, ?_⟩
  rw [hc, h2]
  unfold specSampleVariance
  rw [sum_sq_dev]
  rcases Nat.eq_zero_or_pos xs.length with hn | hn
  · obtain rfl : xs = [] := List.length_eq_zero.mp hn
    simp
  · have hn0 : (xs.length : ℚ) ≠ 0 := Nat.cast_ne_zero.mpr (Nat.pos_iff_ne_zero.mp hn)
    have : (xs.map (fun x => x ^ 2)).sum - 2 * specMean xs * xs.sum +
        (xs.length : ℚ) * specMean xs ^ 2 =
        (xs.map (fun x => x ^ 2)).sum - xs.sum ^ 2 / (xs.length : ℚ) := by
      unfold specMean
      field_simp
      ring
    rw [this]

/-- Spec-side restatement of the calibration finalization formula: if the
sample count is below 60, the guardrail-bounded band default; otherwise
`(mean + 0.90σ, mean + 1.60σ, mean + 2.40σ)` with
`σ = sqrt(M2/(count-1))` (square root of the unbiased sample variance),
except that if `σ < 1.0` the fixed offsets `(+1, +3, +6)` are used; in every
case the result is passed through guardrail clamping and gap
normalization. -/
noncomputable def specFinalThresholds (st : CalState) (band : Option String) :
    ThresholdsR :=
  if st.calCount < 60 then
    applyGuardrailsR (thresholdsForBand band).toR band
  else
    let sigma := Real.sqrt ((st.calM2 : ℝ) / ((st.calCount - 1 : ℕ) : ℝ))
    let th : ThresholdsR :=
      if sigma < 1 then
        ⟨(st.calMean : ℝ) + 1.0, (st.calMean : ℝ) + 3.0, (st.calMean : ℝ) + 6.0⟩
      else
        ⟨(st.calMean : ℝ) + 0.90 * sigma, (st.calMean : ℝ) + 1.60 * sigma,
          (st.calMean : ℝ) + 2.40 * sigma⟩
    applyGuardrailsR th band

/-- The threshold derivation of the code agrees with the spec formula for
every statistics state: the extra `variance < 0` clamp of the code changes nothing
because `Real.sqrt` already sends nonpositive arguments to 0, and its
`calCount > 1` guard is subsumed by the `calCount ≥ 60` branch. -/
theorem computeCalibrated_eq_spec (st : CalState) (band : Option String) :
    computeCalibratedThresholdsFromStats st band = specFinalThresholds st band := by
  unfold computeCalibratedThresholdsFromStats specFinalThresholds
  by_cases h60 : st.calCount < 60
  · simp [h60]
  · have h1 : st.calCount > 1 := by omega
    simp only [h60, if_neg, if_pos, h1, if_true, if_false]
    by_cases hvneg : (st.calM2 : ℝ) / ((st.calCount - 1 : ℕ) : ℝ) < 0
    · rw [if_pos hvneg]
      rw [Real.sqrt_eq_zero_of_nonpos hvneg.le, Real.sqrt_zero]
    · rw [if_neg hvneg]

/-- C3: when calibration finalization is due (enabled, not yet complete,
valid clock and start time, elapsed ≥ learning duration), the firmware marks
calibration complete and overwrites both `CAL_TH` and the active threshold
set (the `some _` second component) with exactly the spec formula: band
default below 60 samples, otherwise `mean + (0.90, 1.60, 2.40)·σ` with
`σ = sqrt(M2/(count-1))`, fixed offsets `(+1, +3, +6)` when `σ < 1`, always
guardrail-clamped and gap-normalized. -/
theorem finalize_due_spec (st : CalState) (nowEpoch : ℤ)
    (hen : st.roomCalEnabled = true)
    (hnc : st.roomCalComplete = false)
    (hvn : hasValidTime nowEpoch = true)
    (hvs : hasValidTime st.roomCalStartEpoch = true)
    (hel : ROOM_CAL_SECONDS ≤ ((nowEpoch - st.roomCalStartEpoch) % 2 ^ 32).toNat) :
    finalizeRoomCalibrationIfDue st nowEpoch =
      ({ st with roomCalComplete := true },
        some (specFinalThresholds st (some st.yearBand))) := by
  unfold finalizeRoomCalibrationIfDue
  rw [computeCalibrated_eq_spec]
  have hel' : ¬(((nowEpoch - st.roomCalStartEpoch) % 4294967296).toNat < ROOM_CAL_SECONDS) := by
    rw [show (4294967296 : ℤ) = 2 ^ 32 by norm_num]
    exact Nat.not_lt.mpr hel
  simp [hen, hnc, hvn, hvs, hel']

def c3StExample : CalState :=
  ⟨true, false, 1700000001, 0, 0, 0, 9999, -9999, bandY2Y3⟩

theorem finalize_due_spec_witness :
    finalizeRoomCalibrationIfDue c3StExample 1700432001 =
      ({ c3StExample with roomCalComplete := true },
        some (specFinalThresholds c3StExample (some c3StExample.yearBand))) :=
  finalize_due_spec c3StExample 1700432001 rfl rfl (by decide) (by decide) (by decide)

/-! ### Reward-machine lemmas -/

theorem loopTick_eq (s : RState) (i : TickInput) :
    loopTick s i =
      if i.ws = LESSON then
        if (sleepUpdate (lessonTransition s i) i).inSleepMode then
          (sleepUpdate (lessonTransition s i) i, false)
        else if (rewardLogic (sleepUpdate (lessonTransition s i) i) i).2 then
          rewardLogic (sleepUpdate (lessonTransition s i) i) i
        else
          (displayAndLogDecay (rewardLogic (sleepUpdate (lessonTransition s i) i) i).1 i,
            false)
      else (lessonTransition s i, false) := rfl

theorem lessonTransition_preserved (s : RState) (i : TickInput) :
    (lessonTransition s i).needsResetAboveGood = s.needsResetAboveGood ∧
    (lessonTransition s i).penaltyUntilMs = s.penaltyUntilMs ∧
    (lessonTransition s i).rewardShowing = s.rewardShowing ∧
    (lessonTransition s i).inSleepMode = s.inSleepMode ∧
    (lessonTransition s i).rewardCooldownUntilMs = s.rewardCooldownUntilMs := by
  simp only [lessonTransition]
  split_ifs <;> exact ⟨rfl, rfl, rfl, rfl, rfl⟩

theorem sleepUpdate_preserved (s : RState) (i : TickInput) :
    (sleepUpdate s i).needsResetAboveGood = s.needsResetAboveGood ∧
    (sleepUpdate s i).penaltyUntilMs = s.penaltyUntilMs ∧
    (sleepUpdate s i).rewardShowing = s.rewardShowing ∧
    (sleepUpdate s i).quietStartMs = s.quietStartMs ∧
    (sleepUpdate s i).rewardCooldownUntilMs = s.rewardCooldownUntilMs ∧
    (sleepUpdate s i).lessonStartMs = s.lessonStartMs := by
  simp only [sleepUpdate]
  split_ifs <;> exact ⟨rfl, rfl, rfl, rfl, rfl, rfl⟩

theorem displayAndLogDecay_preserved (s : RState) (i : TickInput) :
    (displayAndLogDecay s i).needsResetAboveGood = s.needsResetAboveGood ∧
    (displayAndLogDecay s i).penaltyUntilMs = s.penaltyUntilMs ∧
    (displayAndLogDecay s i).rewardCooldownUntilMs = s.rewardCooldownUntilMs := by
  simp only [displayAndLogDecay]
  split_ifs <;> exact ⟨rfl, rfl, rfl⟩

/-- With the above-good-required flag still set when the streak block is
reached, nothing happens. -/
theorem rewardStreak_of_flag (s : RState) (i : TickInput)
    (hflag : s.needsResetAboveGood = true) : rewardStreak s i = (s, false) := by
  simp [rewardStreak, hflag]

/-- The streak block cannot grant on a tick whose average exceeds `goodDb`:
the granting branch requires the average to be at most `goodDb`. -/
theorem rewardStreak_no_grant_of_above (s : RState) (i : TickInput)
    (hg : i.goodDb < i.avgDB) : (rewardStreak s i).2 = false := by
  simp only [rewardStreak]
  split_ifs <;> first | rfl | linarith

/-- With the above-good-required flag set, the gate block cannot grant: the
flag is only cleared on a tick whose average strictly exceeds `goodDb`, and
on such a tick the streak accrual cannot fire. -/
theorem rewardGate_no_grant_of_flag (s : RState) (i : TickInput)
    (hflag : s.needsResetAboveGood = true) : (rewardGate s i).2 = false := by
  simp only [rewardGate]
  by_cases hg : i.avgDB > i.goodDb
  · rw [if_pos hg]
    by_cases hcd : i.nowMs < ({ s with needsResetAboveGood := false } : RState).rewardCooldownUntilMs ∨
        i.nowMs < ({ s with needsResetAboveGood := false } : RState).penaltyUntilMs
    · rw [if_pos hcd]
    · rw [if_neg hcd, if_neg (by simp)]
      exact rewardStreak_no_grant_of_above _ i hg
  · rw [if_neg hg]
    by_cases hcd : i.nowMs < s.rewardCooldownUntilMs ∨ i.nowMs < s.penaltyUntilMs
    · rw [if_pos hcd]
    · rw [if_neg hcd, if_pos hflag, if_neg hg,
        rewardStreak_of_flag ({ s with quietStartMs := 0 }) i hflag]

/-- With the flag set and an average at most `goodDb`, the gate block grants
nothing and keeps the flag set. -/
theorem rewardGate_of_flag (s : RState) (i : TickInput)
    (hflag : s.needsResetAboveGood = true) (havg : i.avgDB ≤ i.goodDb) :
    (rewardGate s i).2 = false ∧ (rewardGate s i).1.needsResetAboveGood = true := by
  have hng : ¬(i.avgDB > i.goodDb) := not_lt.mpr havg
  simp only [rewardGate, if_neg hng]
  by_cases hcd : i.nowMs < s.rewardCooldownUntilMs ∨ i.nowMs < s.penaltyUntilMs
  · rw [if_pos hcd]
    exact ⟨rfl, hflag⟩
  · rw [if_neg hcd, if_pos hflag,
      rewardStreak_of_flag ({ s with quietStartMs := 0 }) i hflag]
    exact ⟨rfl, hflag⟩

/-- During an active cooldown or penalty lockout the gate block cannot
grant. -/
theorem rewardGate_no_grant_of_penalty (s : RState) (i : TickInput)
    (hpen : i.nowMs < s.penaltyUntilMs) : (rewardGate s i).2 = false := by
  simp only [rewardGate]
  have hp : i.nowMs <
      (if i.avgDB > i.goodDb then { s with needsResetAboveGood := false } else s).penaltyUntilMs := by
    split_ifs <;> exact hpen
  rw [if_pos (Or.inr hp)]

/-- With the above-good-required flag set, the reward block cannot grant:
the flag is only cleared on a tick whose average strictly exceeds `goodDb`,
while the granting branch requires the average to be at most `goodDb`. -/
theorem rewardLogic_no_grant_of_flag (s : RState) (i : TickInput)
    (hflag : s.needsResetAboveGood = true) : (rewardLogic s i).2 = false := by
  simp only [rewardLogic]
  split_ifs <;> first | rfl | exact rewardGate_no_grant_of_flag s i hflag

/-- With the flag set and an average at most `goodDb`, the reward block
keeps the flag set. -/
theorem rewardLogic_flag_preserved (s : RState) (i : TickInput)
    (hflag : s.needsResetAboveGood = true) (havg : i.avgDB ≤ i.goodDb) :
    (rewardLogic s i).1.needsResetAboveGood = true := by
  simp only [rewardLogic]
  split_ifs <;> first | exact hflag | rfl | exact (rewardGate_of_flag s i hflag havg).2

/-- During an active penalty lockout the reward block cannot grant. -/
theorem rewardLogic_no_grant_of_penalty (s : RState) (i : TickInput)
    (hpen : i.nowMs < s.penaltyUntilMs) : (rewardLogic s i).2 = false := by
  simp only [rewardLogic]
  split_ifs <;> first | rfl | exact rewardGate_no_grant_of_penalty s i hpen

theorem loopTick_no_grant_of_flag (s : RState) (i : TickInput)
    (hflag : s.needsResetAboveGood = true) : (loopTick s i).2 = false := by
  rw [loopTick_eq]
  by_cases hws : i.ws = LESSON
  · have h1 := (lessonTransition_preserved s i).1
    have h2 := (sleepUpdate_preserved (lessonTransition s i) i).1
    have hf2 : (sleepUpdate (lessonTransition s i) i).needsResetAboveGood = true := by
      rw [h2, h1, hflag]
    have hng := rewardLogic_no_grant_of_flag (sleepUpdate (lessonTransition s i) i) i hf2
    by_cases hsleep : (sleepUpdate (lessonTransition s i) i).inSleepMode <;>
      simp [hws, hsleep, hng]
  · simp [hws]

theorem loopTick_flag_preserved (s : RState) (i : TickInput)
    (hflag : s.needsResetAboveGood = true) (havg : i.avgDB ≤ i.goodDb) :
    (loopTick s i).1.needsResetAboveGood = true := by
  rw [loopTick_eq]
  by_cases hws : i.ws = LESSON
  · have h1 := (lessonTransition_preserved s i).1
    have h2 := (sleepUpdate_preserved (lessonTransition s i) i).1
    have hf2 : (sleepUpdate (lessonTransition s i) i).needsResetAboveGood = true := by
      rw [h2, h1, hflag]
    have hng := rewardLogic_no_grant_of_flag (sleepUpdate (lessonTransition s i) i) i hf2
    have hfp := rewardLogic_flag_preserved (sleepUpdate (lessonTransition s i) i) i hf2 havg
    have hd := (displayAndLogDecay_preserved
      (rewardLogic (sleepUpdate (lessonTransition s i) i) i).1 i).1
    by_cases hsleep : (sleepUpdate (lessonTransition s i) i).inSleepMode <;>
      simp [hws, hsleep, hng, hf2, hd, hfp]
  · simp [hws, (lessonTransition_preserved s i).1, hflag]

theorem loopTick_no_grant_of_penalty (s : RState) (i : TickInput)
    (hpen : i.nowMs < s.penaltyUntilMs) : (loopTick s i).2 = false := by
  rw [loopTick_eq]
  by_cases hws : i.ws = LESSON
  · have h1 := (lessonTransition_preserved s i).2.1
    have h2 := (sleepUpdate_preserved (lessonTransition s i) i).2.1
    have hp2 : i.nowMs < (sleepUpdate (lessonTransition s i) i).penaltyUntilMs := by
      rw [h2, h1]; exact hpen
    have hng := rewardLogic_no_grant_of_penalty (sleepUpdate (lessonTransition s i) i) i hp2
    by_cases hsleep : (sleepUpdate (lessonTransition s i) i).inSleepMode <;>
      simp [hws, hsleep, hng]
  · simp [hws]

/-- C1: once the above-good-required flag is set (as a grant does), no later
tick of the per-tick reward logic can grant again until some tick has
observed a rolling average strictly above the `goodDb` of that tick — whatever
the tick times, window states, modes and averages in between. -/
theorem no_regrant_until_above_good (s0 : RState) (inputs : ℕ → TickInput)
    (h0 : s0.needsResetAboveGood = true) (k : ℕ)
    (hg : grantAt s0 inputs k = true) :
    ∃ j, j < k ∧ (inputs j).goodDb < (inputs j).avgDB := by
  by_contra hcon
  push_neg at hcon
  have hflag : ∀ j, j ≤ k → (stateAt s0 inputs j).needsResetAboveGood = true := by
    intro j
    induction j with
    | zero => exact fun _ => h0
    | succ n ih =>
      intro hj
      have hn : n < k := Nat.lt_of_succ_le hj
      exact loopTick_flag_preserved _ _ (ih (Nat.le_of_lt hn)) (hcon n hn)
  have hng := loopTick_no_grant_of_flag (stateAt s0 inputs k) (inputs k) (hflag k le_rfl)
  rw [grantAt, hng] at hg
  exact Bool.false_ne_true hg

def c1S0 : RState := ⟨0, 0, false, false, 0, 0, 0, true, 0, LESSON, false, 0⟩

def c1In : ℕ → TickInput := fun n =>
  ⟨200000 + 60000 * n, if n = 0 then 50 else 40, LESSON, MODE_NORMAL, 49⟩

theorem no_regrant_until_above_good_witness :
    ∃ j, j < 3 ∧ (c1In j).goodDb < (c1In j).avgDB :=
  no_regrant_until_above_good c1S0 c1In rfl 3 (by with_unfolding_all decide)

def c6CexS : RState := ⟨0, 0, false, false, 0, 0, 0, false, 100000, LESSON, false, 0⟩

def c6CexI : TickInput := ⟨100000, 60, LESSON, MODE_NORMAL, 49⟩

/-- C6, counterexample: a tick that observes average 60.0 during an active
Lesson window in normal mode (Y2Y3 `goodDb = 49`, so a spike) while the
2-minute minimum-lesson gate is still open — here the lesson started at this
very time of the tick — leaves `penaltyUntilMs` at 0: no spike penalty lockout
becomes active, contradicting the claim as stated. -/
theorem spike_in_min_lesson_no_lockout :
    c6CexI.avgDB = 60 ∧ c6CexI.goodDb = 49 ∧ c6CexI.ws = LESSON ∧
      c6CexI.mode = MODE_NORMAL ∧ c6CexS.rewardShowing = false ∧
      (loopTick c6CexS c6CexI).1.penaltyUntilMs = 0 ∧
      ¬c6CexI.nowMs < (loopTick c6CexS c6CexI).1.penaltyUntilMs := by
  with_unfolding_all decide

/-- C6, amended: if the reward logic runs during an active Lesson window in
normal mode, the 2-minute minimum-lesson time has elapsed, and a tick
observes average 60.0 (a spike against the Y2Y3 default `goodDb = 49`), then
the 2-minute penalty lockout is armed (`penaltyUntilMs = now + 120000`), the
streak is zeroed and the above-good flag set; and on every tick inside an
active penalty lockout (`now < penaltyUntilMs`), no reward is granted. -/
theorem spike_penalty_lockout :
    (∀ (s : RState) (i : TickInput),
      i.ws = LESSON → s.lastWs = LESSON → i.mode = MODE_NORMAL →
      s.rewardShowing = false → s.inSleepMode = false →
      i.avgDB = 60 → i.goodDb = 49 →
      MIN_LESSON_BEFORE_REWARD_MS ≤ sub32 i.nowMs s.lessonStartMs →
      (loopTick s i).1.penaltyUntilMs = add32 i.nowMs SPIKE_PENALTY_MS ∧
        (loopTick s i).1.quietStartMs = 0 ∧
        (loopTick s i).1.needsResetAboveGood = true ∧
        (loopTick s i).2 = false) ∧
    (∀ (s : RState) (i : TickInput), i.nowMs < s.penaltyUntilMs →
      (loopTick s i).2 = false) := by
  constructor
  · intro s i hws hlast hmode hshow hsleep havg hgood hmin
    have hmin' : ¬(sub32 i.nowMs s.lessonStartMs < MIN_LESSON_BEFORE_REWARD_MS) :=
      Nat.not_lt.mpr hmin
    norm_num [loopTick_eq, lessonTransition, sleepUpdate, rewardLogic,
      displayAndLogDecay, hws, hlast, hmode, hshow, hsleep, havg, hgood, hmin',
      SLEEP_DB_THRESHOLD, WAKE_DB_THRESHOLD, REWARD_SPIKE_MARGIN_DB]
    split_ifs <;> exact ⟨rfl, rfl, rfl⟩
  · exact loopTick_no_grant_of_penalty

def c6LockS : RState := ⟨0, 0, false, false, 0, 0, 320000, false, 0, LESSON, false, 0⟩

def c6LockI : TickInput := ⟨250000, 40, LESSON, MODE_NORMAL, 49⟩

def c6SpikeS : RState := ⟨0, 0, false, false, 0, 0, 0, false, 0, LESSON, false, 0⟩

def c6SpikeI : TickInput := ⟨200000, 60, LESSON, MODE_NORMAL, 49⟩

theorem spike_penalty_lockout_witness :
    (loopTick c6SpikeS c6SpikeI).1.penaltyUntilMs = add32 200000 SPIKE_PENALTY_MS ∧
      (loopTick c6LockS c6LockI).2 = false :=
  ⟨(spike_penalty_lockout.1 c6SpikeS c6SpikeI rfl rfl rfl rfl rfl rfl rfl
      (by with_unfolding_all decide)).1,
    spike_penalty_lockout.2 c6LockS c6LockI (by with_unfolding_all decide)⟩

def c7S0 : RState := ⟨0, 0, false, false, 0, 0, 0, false, 0, LESSON, false, 0⟩

def c7Inputs : List TickInput :=
  (List.range 125).map fun k => ⟨200000 + 1000 * k, 40, LESSON, MODE_NORMAL, 49⟩

/-- C7: the Y2Y3 band default thresholds are `(49, 52, 55)` (and guardrail
application keeps them, so they are also the active set); feeding a constant
rolling average of 40.0 at one tick per second during an active Lesson
window — the lesson running since time 0 and ticks starting at 200 s, with
no prior cooldown or penalty — grants exactly one reward, on the tick 120 s
after the streak began (index 120 of 125); the display then shows the reward
for 3 seconds (still Showing-Reward after the ticks at +1 s, +2 s) and on
the tick 3 s after the grant returns to Idle with the streak zeroed. -/
theorem y2y3_reward_scenario :
    (thresholdsForBand (some bandY2Y3) = ⟨49, 52, 55⟩ ∧
      applyGuardrails ⟨49, 52, 55⟩ (some bandY2Y3) = ⟨49, 52, 55⟩) ∧
    (runTicks c7S0 c7Inputs).2 = (List.range 125).map (fun k => k == 120) ∧
    (runTicks c7S0 (c7Inputs.take 121)).1.rewardShowing = true ∧
    (runTicks c7S0 (c7Inputs.take 121)).1.rewardStartMs = 320000 ∧
    (runTicks c7S0 (c7Inputs.take 123)).1.rewardShowing = true ∧
    (runTicks c7S0 (c7Inputs.take 124)).1.rewardShowing = false ∧
    (runTicks c7S0 (c7Inputs.take 124)).1.quietStartMs = 0 := by
  with_unfolding_all decide

end ClassroomSounds
